import Mathlib

/-
A shallow embedding of the reference-counted smart-pointer pair from
`src/shared_ptr.h` and `src/control_block.h`.

Control blocks live on a heap modelled as a total function from block ids
(natural numbers) to block records; `next` is the next fresh block id and
`allocs` counts the heap allocations performed so far (both `new T(...)`
object allocations and control-block allocations).  A handle is a pair of
an optional control-block id (the C++ `control_block* control`, `none` for
`nullptr`) and an object address (`T* ptr`, with `0` playing the role of
the null pointer).  The counters are C++ `size_t` values, embedded as
natural numbers with wrap-around at 2^64 made explicit in `inc_u64` and
`dec_u64`.

Every operation is translated statement by statement from the source; the
comments cite the lines of `src/shared_ptr.h` (or `src/control_block.h`)
each definition embeds.  `delete_object` and `delete control` are modelled
as event counters on the block (`delete_object_count`, `delete_block_count`)
so that "destroyed exactly once" claims are directly observable.
-/

/-- Which concrete `control_block` subtype a block was allocated as:
`not_init_block` stores a raw pointer plus a deleter (control_block.h lines
11-20), `init_block` co-allocates the object inside the block
(control_block.h lines 22-34). -/
inductive BlockKind where
  | not_init_block : BlockKind
  | init_block : BlockKind
deriving DecidableEq

/-- The control block (control_block.h lines 3-9): two `size_t` counters,
starting at 0, plus the subtype tag and two event counters recording how
many times `delete_object()` and `delete control` have happened to it. -/
structure control_block where
  kind : BlockKind
  shared_counter : Nat
  weak_counter : Nat
  delete_object_count : Nat
  delete_block_count : Nat
deriving DecidableEq

/-- Number of values of the C++ `size_t` type (64-bit). -/
def USIZE : Nat := 2 ^ 64

/-- Increment of a `size_t` value below 2^64: `n + 1`, wrapping to 0 at
`2^64 - 1` (for `n < USIZE` this equals `(n + 1) % USIZE`). -/
def inc_u64 (n : Nat) : Nat := if n = USIZE - 1 then 0 else n + 1

/-- Decrement of a `size_t` value below 2^64: `n - 1`, wrapping to
`2^64 - 1` at 0 (for `n < USIZE` this equals `(n + USIZE - 1) % USIZE`). -/
def dec_u64 (n : Nat) : Nat := if n = 0 then USIZE - 1 else n - 1

/-- The global state: the heap of control blocks (`blk`), the next fresh
block id (`next`) and the number of heap allocations performed (`allocs`). -/
structure State where
  next : Nat
  blk : Nat → control_block
  allocs : Nat

/-- Update the control block with id `i` in place. -/
def State.modify (st : State) (i : Nat) (f : control_block → control_block) : State :=
  { st with blk := Function.update st.blk i (f (st.blk i)) }

/-- Allocate a fresh control block of kind `k` (a C++ `new` of one of the
two subtypes): both counters start at 0 (control_block.h lines 4-5).
Returns the new state and the new block's id. -/
def State.alloc (st : State) (k : BlockKind) : State × Nat :=
  ({ next := st.next + 1,
     blk := Function.update st.blk st.next ⟨k, 0, 0, 0, 0⟩,
     allocs := st.allocs + 1 }, st.next)

/-- The empty initial state: no blocks allocated yet. -/
def State.start : State :=
  { next := 0, blk := fun _ => ⟨BlockKind.not_init_block, 0, 0, 0, 0⟩, allocs := 0 }

/-- A strong handle (shared_ptr.h lines 8-182): `control_block* control`
(`none` = `nullptr`) and `T* ptr` (`0` = `nullptr`). -/
structure shared_ptr where
  control : Option Nat
  ptr : Nat
deriving DecidableEq

/-- A weak handle (shared_ptr.h lines 221-334): same two fields. -/
structure weak_ptr where
  control : Option Nat
  ptr : Nat
deriving DecidableEq

/-- The default-constructed strong handle (shared_ptr.h line 11):
`control = nullptr, ptr = nullptr`. -/
def shared_ptr.empty : shared_ptr := ⟨none, 0⟩

/-- The default-constructed weak handle (shared_ptr.h line 224). -/
def weak_ptr.empty : weak_ptr := ⟨none, 0⟩

/-- shared_ptr.h lines 166-170, `shared_ptr::increase_control`: if
`control != nullptr`, `control->shared_counter++`. -/
def increase_control (st : State) (c : Option Nat) : State :=
  match c with
  | none => st
  | some i => st.modify i fun b => { b with shared_counter := inc_u64 b.shared_counter }

/-- shared_ptr.h lines 320-324, `weak_ptr::increase_control`: if
`control != nullptr`, `control->weak_counter++`. -/
def weak_increase_control (st : State) (c : Option Nat) : State :=
  match c with
  | none => st
  | some i => st.modify i fun b => { b with weak_counter := inc_u64 b.weak_counter }

/-- shared_ptr.h lines 157-159, `shared_ptr::use_count`:
`control == nullptr ? 0 : control->shared_counter`. -/
def shared_ptr.use_count (p : shared_ptr) (st : State) : Nat :=
  match p.control with
  | none => 0
  | some i => (st.blk i).shared_counter

/-- shared_ptr.h lines 161-163, `shared_ptr::operator bool`:
`ptr != nullptr`. -/
def shared_ptr.toBool (p : shared_ptr) : Bool := p.ptr != 0

/-- shared_ptr.h lines 190-193, `operator==(shared_ptr, shared_ptr)`:
`lhs.get() == rhs.get()`, i.e. comparison of the object pointers only. -/
def shared_ptr.op_eq (a b : shared_ptr) : Bool := a.ptr == b.ptr

/-- shared_ptr.h lines 15-21 / 23-29, `shared_ptr(Y* p)` and
`shared_ptr(Y* p, Deleter d)`: `control = new not_init_block(...)` (a fresh
block, counters 0), then `increase_control()`, then `ptr = p`. -/
def shared_ptr.ctor_from_raw (st : State) (p : Nat) : State × shared_ptr :=
  let a := st.alloc BlockKind.not_init_block
  let st1 := increase_control a.1 (some a.2)
  (st1, ⟨some a.2, p⟩)

/-- shared_ptr.h lines 31-37, `shared_ptr(std::nullptr_t p, Deleter d)`:
allocates a `not_init_block` holding the null pointer, then
`increase_control()`; the stored object pointer is null. -/
def shared_ptr.ctor_null_deleter (st : State) : State × shared_ptr :=
  let a := st.alloc BlockKind.not_init_block
  let st1 := increase_control a.1 (some a.2)
  (st1, ⟨some a.2, 0⟩)

/-- shared_ptr.h lines 51-53 and 55-58, the copy constructors (same type
and converting): `control = r.control; ptr = (cast) r.ptr;
increase_control()`. -/
def shared_ptr.copy_construct (st : State) (r : shared_ptr) : State × shared_ptr :=
  (increase_control st r.control, ⟨r.control, r.ptr⟩)

/-- shared_ptr.h lines 71-83, `~shared_ptr`: if `control == nullptr`
return; `control->shared_counter--`; if it is now 0, `delete_object()`,
and if additionally `weak_counter == 0`, `delete control`. -/
def shared_ptr.destruct (st : State) (p : shared_ptr) : State :=
  match p.control with
  | none => st
  | some i =>
    let st1 := st.modify i fun b => { b with shared_counter := dec_u64 b.shared_counter }
    if (st1.blk i).shared_counter = 0 then
      let st2 := st1.modify i fun b => { b with delete_object_count := b.delete_object_count + 1 }
      if (st2.blk i).weak_counter = 0 then
        st2.modify i fun b => { b with delete_block_count := b.delete_block_count + 1 }
      else
        st2
    else
      st1

/-- shared_ptr.h lines 86-98, `operator=(const shared_ptr& r)` (same
type): if `*this == r` (object pointers equal) return unchanged; otherwise
`shared_ptr<T>().swap(*this)` — the temporary, holding the old state, is
destroyed at the end of that statement — then `control = r.control;
increase_control(); ptr = r.ptr`.  Returns the new state and the new value
of the left-hand handle. -/
def shared_ptr.copy_assign (st : State) (dst src : shared_ptr) : State × shared_ptr :=
  if dst.ptr == src.ptr then
    (st, dst)
  else
    let st1 := shared_ptr.destruct st dst
    (increase_control st1 src.control, ⟨src.control, src.ptr⟩)

/-- shared_ptr.h lines 100-107, the converting `operator=(const
shared_ptr<Y>& r)` (chosen by overload resolution whenever `Y` differs
from `T`): `control = r.control; increase_control(); ptr = (cast) r.ptr` —
with no release of the previous ownership of `*this`. -/
def shared_ptr.copy_assign_conv (st : State) (dst src : shared_ptr) : State × shared_ptr :=
  (increase_control st src.control, ⟨src.control, src.ptr⟩)

/-- shared_ptr.h lines 135-138, `shared_ptr::swap`: exchanges `control`
and `ptr` of the two handles; returns their new values in order. -/
def shared_ptr.swap_op (a b : shared_ptr) : shared_ptr × shared_ptr := (b, a)

/-- shared_ptr.h lines 301-304, `weak_ptr::swap`. -/
def weak_ptr.swap_op (a b : weak_ptr) : weak_ptr × weak_ptr := (b, a)

/-- shared_ptr.h lines 60-63, `shared_ptr(shared_ptr&& r)`: `*this` is
default-constructed, `r.swap(*this)`, then `shared_ptr<T>().swap(r)` whose
temporary (holding `r`'s post-swap value, the empty handle) is destroyed
at the end of the statement.  Returns (state, constructed handle, source
handle after the move). -/
def shared_ptr.move_construct (st : State) (r : shared_ptr) : State × shared_ptr × shared_ptr :=
  let s1 := shared_ptr.swap_op r shared_ptr.empty
  let s2 := shared_ptr.swap_op shared_ptr.empty s1.1
  let st1 := shared_ptr.destruct st s2.1
  (st1, s1.2, s2.2)

/-- shared_ptr.h lines 109-112 (and 114-118), `operator=(shared_ptr&& r)`
with `r` distinct from `*this`: `shared_ptr<T>(std::move(r)).swap(*this)`;
the temporary, now holding the old `*this`, is destroyed at the end of the
statement.  Returns (state, left-hand handle after, source after). -/
def shared_ptr.move_assign (st : State) (dst src : shared_ptr) : State × shared_ptr × shared_ptr :=
  let m := shared_ptr.move_construct st src
  let s := shared_ptr.swap_op m.2.1 dst
  let st2 := shared_ptr.destruct m.1 s.1
  (st2, s.2, m.2.2)

/-- shared_ptr.h lines 109-112 in the self-move case `p = std::move(p)`
(`&r == this`): the temporary is move-constructed from `r`, which IS
`*this`, so after that step the temporary holds `p`'s old state and
`*this` is empty; `temp.swap(*this)` then puts the old state back and the
temporary, now empty, is destroyed as a no-op. -/
def shared_ptr.move_assign_self (st : State) (p : shared_ptr) : State × shared_ptr :=
  let m := shared_ptr.move_construct st p
  let s := shared_ptr.swap_op m.2.1 m.2.2
  let st2 := shared_ptr.destruct m.1 s.1
  (st2, s.2)

/-- shared_ptr.h lines 235-238, `weak_ptr(const shared_ptr<Y>& r)`:
`control = r.control; ptr = (cast) r.ptr; increase_control()` (the weak
counter is incremented). -/
def weak_ptr.from_shared (st : State) (r : shared_ptr) : State × weak_ptr :=
  (weak_increase_control st r.control, ⟨r.control, r.ptr⟩)

/-- shared_ptr.h lines 226-233, the weak copy constructors. -/
def weak_ptr.copy_construct (st : State) (r : weak_ptr) : State × weak_ptr :=
  (weak_increase_control st r.control, ⟨r.control, r.ptr⟩)

/-- shared_ptr.h lines 252-261, `~weak_ptr`: if `control == nullptr`
return; `control->weak_counter--`; if `shared_counter == 0 &&
weak_counter == 0`, `delete control`. -/
def weak_ptr.destruct (st : State) (w : weak_ptr) : State :=
  match w.control with
  | none => st
  | some i =>
    let st1 := st.modify i fun b => { b with weak_counter := dec_u64 b.weak_counter }
    if (st1.blk i).shared_counter = 0 ∧ (st1.blk i).weak_counter = 0 then
      st1.modify i fun b => { b with delete_block_count := b.delete_block_count + 1 }
    else
      st1

/-- shared_ptr.h lines 240-249, `weak_ptr(weak_ptr&& r)`: same swap-based
pattern as the strong move constructor. -/
def weak_ptr.move_construct (st : State) (r : weak_ptr) : State × weak_ptr × weak_ptr :=
  let s1 := weak_ptr.swap_op r weak_ptr.empty
  let s2 := weak_ptr.swap_op weak_ptr.empty s1.1
  let st1 := weak_ptr.destruct st s2.1
  (st1, s1.2, s2.2)

/-- shared_ptr.h lines 281-290, `weak_ptr::operator=(weak_ptr&& r)` with
`r` distinct from `*this`: `weak_ptr<T>(std::move(r)).swap(*this)` and the
temporary (old `*this`) is destroyed. -/
def weak_ptr.move_assign (st : State) (dst src : weak_ptr) : State × weak_ptr × weak_ptr :=
  let m := weak_ptr.move_construct st src
  let s := weak_ptr.swap_op m.2.1 dst
  let st2 := weak_ptr.destruct m.1 s.1
  (st2, s.2, m.2.2)

/-- shared_ptr.h lines 293-299, `weak_ptr::reset`: if `control == nullptr`
return; `control->weak_counter--; control = nullptr` — with no check
whether the control block should be freed. -/
def weak_ptr.reset (st : State) (w : weak_ptr) : State × weak_ptr :=
  match w.control with
  | none => (st, w)
  | some i =>
    (st.modify i fun b => { b with weak_counter := dec_u64 b.weak_counter },
     { w with control := none })

/-- shared_ptr.h lines 307-309, `weak_ptr::use_count`:
`control == nullptr ? 0 : control->shared_counter`. -/
def weak_ptr.use_count (w : weak_ptr) (st : State) : Nat :=
  match w.control with
  | none => 0
  | some i => (st.blk i).shared_counter

/-- shared_ptr.h lines 311-313, `weak_ptr::expired`: `use_count() == 0`. -/
def weak_ptr.expired (w : weak_ptr) (st : State) : Bool := w.use_count st == 0

/-- shared_ptr.h lines 65-68, the explicit `shared_ptr(const weak_ptr<Y>&
r)` promotion: `control = r.control; ptr = r.ptr; increase_control()` —
unconditionally, with no liveness check. -/
def shared_ptr.from_weak (st : State) (r : weak_ptr) : State × shared_ptr :=
  (increase_control st r.control, ⟨r.control, r.ptr⟩)

/-- shared_ptr.h lines 315-317, `weak_ptr::lock`:
`expired() ? shared_ptr<T>() : shared_ptr<T>(*this)`. -/
def weak_ptr.lock (w : weak_ptr) (st : State) : State × shared_ptr :=
  if w.expired st then (st, shared_ptr.empty) else shared_ptr.from_weak st w

/-- shared_ptr.h lines 185-188, `make_shared<T>(args...)`:
`shared_ptr<T>(new T(std::forward<Args>(args)...))` — one allocation for
the object itself (`new T`, modelled as bumping `allocs` and taking a
fresh nonzero address for the result), then the raw-pointer constructor,
which allocates a second, separate `not_init_block`. -/
def make_shared (st : State) : State × shared_ptr :=
  let st1 : State := { st with allocs := st.allocs + 1 }
  shared_ptr.ctor_from_raw st1 st1.allocs

/-- Concrete trace for the refcount invariant: `shared_ptr<D> p(new D)`
(block 0, strong count 1), converting copy `shared_ptr<B> q(p)` (count 2),
converting assignment `q = p` within the same group (count becomes 3 with
only 2 live handles, since lines 100-107 never release `q`'s old
reference), then `~p` and `~q`. -/
def c1_trace_final : State :=
  let r0 := shared_ptr.ctor_from_raw State.start 5
  let r1 := shared_ptr.copy_construct r0.1 r0.2
  let r2 := shared_ptr.copy_assign_conv r1.1 r1.2 r0.2
  let st3 := shared_ptr.destruct r2.1 r0.2
  shared_ptr.destruct st3 r2.2

/-- Concrete trace for control-block release: `shared_ptr p(new T)`
(block 0, strong 1, weak 0), `weak_ptr w(p)` (weak 1), `~p` (strong hits
0, object deleted, block kept because weak = 1), then `w.reset()` (weak
hits 0, but lines 293-299 perform no release check). -/
def c2_trace_final : State :=
  let r0 := shared_ptr.ctor_from_raw State.start 5
  let r1 := weak_ptr.from_shared r0.1 r0.2
  let st2 := shared_ptr.destruct r1.1 r0.2
  (weak_ptr.reset st2 r1.2).1

/-- Concrete trace for converting copy assignment between unrelated
groups: `a` owns block 0 (object at address 5), `b` owns block 1 (object
at address 9), then `a = b` through the converting assignment operator
(lines 100-107). -/
def c3_trace : State × shared_ptr :=
  let r0 := shared_ptr.ctor_from_raw State.start 5
  let r1 := shared_ptr.ctor_from_raw r0.1 9
  shared_ptr.copy_assign_conv r1.1 r0.2 r1.2

/-! ## Helper lemmas about the heap -/

/-- Reading the block just modified. -/
theorem blk_modify_self (st : State) (i : Nat) (f : control_block → control_block) :
    (st.modify i f).blk i = f (st.blk i) := by
  simp [State.modify, Function.update_same]

/-- Reading a block other than the one modified. -/
theorem blk_modify_ne (st : State) (i j : Nat) (f : control_block → control_block)
    (h : j ≠ i) : (st.modify i f).blk j = st.blk j := by
  simp [State.modify, Function.update_noteq h]

/-- Unsaturated `size_t` increment is plain successor. -/
theorem inc_u64_of_lt (n : Nat) (h : n + 1 < USIZE) : inc_u64 n = n + 1 := by
  have hU : USIZE = 18446744073709551616 := by norm_num [USIZE]
  unfold inc_u64
  rw [if_neg]
  omega

/-- The strong destructor leaves every other control block untouched. -/
theorem destruct_blk_other (st : State) (p : shared_ptr) (i : Nat)
    (h : p.control ≠ some i) : (shared_ptr.destruct st p).blk i = st.blk i := by
  cases hc : p.control with
  | none => simp [shared_ptr.destruct, hc]
  | some j =>
    have hij : i ≠ j := fun e => h (by rw [hc, e])
    simp only [shared_ptr.destruct, hc]
    split
    · split
      · rw [blk_modify_ne _ _ _ _ hij, blk_modify_ne _ _ _ _ hij, blk_modify_ne _ _ _ _ hij]
      · rw [blk_modify_ne _ _ _ _ hij, blk_modify_ne _ _ _ _ hij]
    · rw [blk_modify_ne _ _ _ _ hij]

/-- The weak destructor leaves every other control block untouched. -/
theorem weak_destruct_blk_other (st : State) (w : weak_ptr) (i : Nat)
    (h : w.control ≠ some i) : (weak_ptr.destruct st w).blk i = st.blk i := by
  cases hc : w.control with
  | none => simp [weak_ptr.destruct, hc]
  | some j =>
    have hij : i ≠ j := fun e => h (by rw [hc, e])
    simp only [weak_ptr.destruct, hc]
    split
    · rw [blk_modify_ne _ _ _ _ hij, blk_modify_ne _ _ _ _ hij]
    · rw [blk_modify_ne _ _ _ _ hij]

/-! ## Claim theorems -/

/-- C1: refuted on the code.  In `c1_trace_final` a group of two live
Strong Handles sharing control block 0 executes the converting copy
assignment `q = p` (shared_ptr.h lines 100-107), which increments
`shared_counter` without releasing `q`'s previous reference; after BOTH
handles of the group are subsequently destroyed (zero live Strong Handles
remain), the block's `strong_count` is still 1 — not 0, so it never
equalled the number of live handles after the assignment — and
`delete_object` was never called, so the managed object is not destroyed
exactly once when the count should have reached zero. -/
theorem c1_strong_count_invariant_violated :
    (c1_trace_final.blk 0).shared_counter = 1
    ∧ (c1_trace_final.blk 0).shared_counter ≠ 0
    ∧ (c1_trace_final.blk 0).delete_object_count = 0 := by decide

/-- C2: refuted on the code.  In `c2_trace_final` the group is one Strong
and one Weak Handle on control block 0; the strong destructor brings
`strong_count` to 0 (keeping the block because `weak_count = 1`), then
`weak_ptr::reset` (shared_ptr.h lines 293-299) brings `weak_count` to 0 —
at which moment the claim requires the control block's storage to be
released exactly once — yet `delete control` has happened 0 times, because
`reset` performs no release check. -/
theorem c2_block_release_violated :
    (c2_trace_final.blk 0).shared_counter = 0
    ∧ (c2_trace_final.blk 0).weak_counter = 0
    ∧ (c2_trace_final.blk 0).delete_block_count = 0
    ∧ (c2_trace_final.blk 0).delete_object_count = 1 := by decide

/-- C3: refuted on the code.  In `c3_trace`, handle `a` (block 0, object
address 5, `strong_count = 1`) is copy-assigned from a related-type handle
`b` (block 1, object address 9) through shared_ptr.h lines 100-107.  The
claim requires block 0's `strong_count` to be decremented to 0 and its
object destroyed before the assignment completes; instead block 0 still
has `strong_count = 1` and `delete_object` was never called (the operator
simply overwrites the fields, with no temporary and no swap), while block
1 was incremented to 2. -/
theorem c3_conv_copy_assign_leaks :
    ((c3_trace.1.blk 0).shared_counter = 1
     ∧ (c3_trace.1.blk 0).delete_object_count = 0)
    ∧ (c3_trace.1.blk 1).shared_counter = 2
    ∧ c3_trace.2 = ⟨some 1, 9⟩ := by decide

/-- C4: refuted on the code.  `make_shared` (shared_ptr.h lines 185-188)
is `shared_ptr<T>(new T(args...))`: starting from the empty state it
performs TWO allocations (`allocs = 2`: the object itself, then the
control block inside the raw-pointer constructor), and the control block
it creates is the separately-allocated `not_init_block` subtype, not the
co-allocated `init_block` the claim requires — `init_block`
(control_block.h lines 22-34) is never used.  The returned Strong Handle
does have `strong_count = 1`, confirming that part of the claim. -/
theorem c4_make_shared_not_coallocated :
    (make_shared State.start).1.allocs = 2
    ∧ ((make_shared State.start).1.blk 0).kind = BlockKind.not_init_block
    ∧ ((make_shared State.start).1.blk 0).kind ≠ BlockKind.init_block
    ∧ (make_shared State.start).2.use_count (make_shared State.start).1 = 1 := by decide

/-- C8 counterexample: the claim is false as stated.  Take one control
block (id 0) with `strong_count = 2, weak_count = 0` and two distinct
Strong Handles `dst` and `src` both referencing it; the move assignment
`dst = std::move(src)` (shared_ptr.h lines 109-112) leaves the source
empty, but changes the aggregate `strong_count` of the shared control
block from 2 to 1, because the temporary's destructor releases `dst`'s
previous reference to that same block. -/
theorem c8_move_assign_same_block_counterexample :
    ((shared_ptr.move_assign
        ⟨1, fun _ => ⟨BlockKind.not_init_block, 2, 0, 0, 0⟩, 2⟩
        ⟨some 0, 5⟩ ⟨some 0, 5⟩).1.blk 0).shared_counter = 1
    ∧ ((shared_ptr.move_assign
        ⟨1, fun _ => ⟨BlockKind.not_init_block, 2, 0, 0, 0⟩, 2⟩
        ⟨some 0, 5⟩ ⟨some 0, 5⟩).1.blk 0).shared_counter
      ≠ ((⟨1, fun _ => ⟨BlockKind.not_init_block, 2, 0, 0, 0⟩, 2⟩ : State).blk 0).shared_counter
    ∧ (shared_ptr.move_assign
        ⟨1, fun _ => ⟨BlockKind.not_init_block, 2, 0, 0, 0⟩, 2⟩
        ⟨some 0, 5⟩ ⟨some 0, 5⟩).2.2 = shared_ptr.empty := by decide

/-- C5: confirmed.  For every state and Weak Handle `w`: if `w` is expired
(`use_count() == 0`, which includes the empty case), `lock()` returns the
empty Strong Handle and leaves the state unchanged; otherwise — provided
the 64-bit strong counter is not saturated — `lock()` returns a Strong
Handle that is non-empty in the ownership sense (positive `use_count`),
equal by object pointer to the original, referencing the same control
block, and the shared `strong_count` after the call is exactly one greater
than before the call. -/
theorem c5_lock_spec (st : State) (w : weak_ptr) :
    (w.expired st = true → w.lock st = (st, shared_ptr.empty))
    ∧ (w.expired st = false → w.use_count st + 1 < USIZE →
        0 < (w.lock st).2.use_count (w.lock st).1
        ∧ (w.lock st).2.ptr = w.ptr
        ∧ (w.lock st).2.control = w.control
        ∧ (w.lock st).2.use_count (w.lock st).1 = w.use_count st + 1
        ∧ w.use_count (w.lock st).1 = w.use_count st + 1) := by
  constructor
  · intro h
    simp [weak_ptr.lock, h]
  · intro h hlt
    cases hc : w.control with
    | none =>
      rw [weak_ptr.expired, weak_ptr.use_count, hc] at h
      simp at h
    | some i =>
      have hcount : w.use_count st = (st.blk i).shared_counter := by
        rw [weak_ptr.use_count, hc]
      have hinc : inc_u64 ((st.blk i).shared_counter) = (st.blk i).shared_counter + 1 :=
        inc_u64_of_lt _ (by rw [← hcount]; exact hlt)
      simp only [weak_ptr.lock, h, Bool.false_eq_true, if_false, shared_ptr.from_weak,
        increase_control, hc, shared_ptr.use_count, weak_ptr.use_count, blk_modify_self,
        hinc, hcount]
      simp

/-- C5 witness: one block with `strong_count = 1, weak_count = 1` and a
live Weak Handle on it; `lock()` yields a positive use count. -/
theorem c5_lock_witness :
    0 < ((⟨some 0, 7⟩ : weak_ptr).lock
          ⟨1, fun _ => ⟨BlockKind.not_init_block, 1, 1, 0, 0⟩, 2⟩).2.use_count
        ((⟨some 0, 7⟩ : weak_ptr).lock
          ⟨1, fun _ => ⟨BlockKind.not_init_block, 1, 1, 0, 0⟩, 2⟩).1 :=
  ((c5_lock_spec ⟨1, fun _ => ⟨BlockKind.not_init_block, 1, 1, 0, 0⟩, 2⟩ ⟨some 0, 7⟩).2
    (by decide) (by decide)).1

/-- C6: confirmed (generalised to any Weak Handle sharing the block, which
covers one created from a Strong Handle while the object was alive).  If
`p` is the last live Strong Handle of its group (`strong_count = 1`) and
`w` shares `p`'s control block, then immediately after `p` is destroyed
`w.expired()` is `true` and `w.lock()` returns the empty Strong Handle;
moreover `lock()` does not change the state, so every subsequent call
returns the empty handle as well. -/
theorem c6_expired_after_last_strong (st : State) (p : shared_ptr) (w : weak_ptr) (i : Nat)
    (hp : p.control = some i) (hw : w.control = some i)
    (hs : (st.blk i).shared_counter = 1) :
    w.expired (shared_ptr.destruct st p) = true
    ∧ w.lock (shared_ptr.destruct st p) = (shared_ptr.destruct st p, shared_ptr.empty) := by
  have key : ((shared_ptr.destruct st p).blk i).shared_counter = 0 := by
    simp only [shared_ptr.destruct, hp]
    have h1 : dec_u64 ((st.blk i).shared_counter) = 0 := by
      rw [hs]; decide
    split
    · split
      · rw [blk_modify_self, blk_modify_self, blk_modify_self, h1]
      · rw [blk_modify_self, blk_modify_self, h1]
    · rw [blk_modify_self, h1]
  have hexp : w.expired (shared_ptr.destruct st p) = true := by
    simp only [weak_ptr.expired, weak_ptr.use_count, hw, key]
    rfl
  exact ⟨hexp, by rw [weak_ptr.lock, hexp]; simp⟩

/-- C6 witness: block 0 with `strong_count = 1, weak_count = 1`, the last
Strong Handle destroyed; the Weak Handle reports expired. -/
theorem c6_expired_witness :
    (⟨some 0, 5⟩ : weak_ptr).expired
      (shared_ptr.destruct ⟨1, fun _ => ⟨BlockKind.not_init_block, 1, 1, 0, 0⟩, 2⟩
        ⟨some 0, 5⟩) = true :=
  (c6_expired_after_last_strong ⟨1, fun _ => ⟨BlockKind.not_init_block, 1, 1, 0, 0⟩, 2⟩
    ⟨some 0, 5⟩ ⟨some 0, 5⟩ 0 rfl rfl (by decide)).1

/-- C7: confirmed.  Whenever the two Strong Handles hold identical object
pointers (this includes self-assignment, and also aliasing handles on
distinct control blocks), the same-type copy assignment (shared_ptr.h
lines 86-98) short-circuits through `*this == r` (lines 190-193, object
pointer comparison) and is a complete no-op: the state — hence every
`strong_count`, `weak_count` and destruction count — is unchanged, and the
assignee keeps its control-block and object pointers. -/
theorem c7_copy_assign_same_ptr_noop (st : State) (dst src : shared_ptr)
    (h : dst.ptr = src.ptr) :
    shared_ptr.copy_assign st dst src = (st, dst) := by
  simp [shared_ptr.copy_assign, h]

/-- C7 witness: two aliasing handles with equal object pointers on
DIFFERENT control blocks; assignment changes nothing. -/
theorem c7_copy_assign_witness :
    shared_ptr.copy_assign ⟨2, fun _ => ⟨BlockKind.not_init_block, 1, 0, 0, 0⟩, 2⟩
      ⟨some 0, 5⟩ ⟨some 1, 5⟩
    = (⟨2, fun _ => ⟨BlockKind.not_init_block, 1, 0, 0, 0⟩, 2⟩, ⟨some 0, 5⟩) :=
  c7_copy_assign_same_ptr_noop _ ⟨some 0, 5⟩ ⟨some 1, 5⟩ rfl

/-- C9: confirmed.  Constructing a Strong Handle from a null raw pointer
together with a deleter (shared_ptr.h lines 31-37) still allocates a
control block: the resulting handle has `use_count() = 1` (non-empty in
the ownership sense) while its boolean conversion is `false` because the
stored object pointer is null. -/
theorem c9_null_with_deleter (st : State) :
    (shared_ptr.ctor_null_deleter st).2.use_count (shared_ptr.ctor_null_deleter st).1 = 1
    ∧ (shared_ptr.ctor_null_deleter st).2.toBool = false
    ∧ (shared_ptr.ctor_null_deleter st).2.control = some st.next
    ∧ (shared_ptr.ctor_null_deleter st).1.allocs = st.allocs + 1 := by
  refine ⟨?_, rfl, rfl, rfl⟩
  simp only [shared_ptr.ctor_null_deleter, State.alloc, increase_control,
    shared_ptr.use_count, blk_modify_self, Function.update_same]
  decide

/-- C10: confirmed.  Move-assigning a Strong Handle to itself,
`p = std::move(p)` (shared_ptr.h lines 109-112 with `&r == this`), leaves
both the state and the handle exactly as they were: the temporary receives
the old state through the swap inside the move constructor, hands it back
through `temp.swap(*this)`, and is destroyed empty, so `use_count()` is
unchanged, the managed object is not destroyed, and the handle still
references the same control block and object pointer. -/
theorem c10_self_move_assign_noop (st : State) (p : shared_ptr) :
    shared_ptr.move_assign_self st p = (st, p) := rfl

/-- C8 amended: move-constructing a Strong or Weak Handle leaves the
source in the empty state (`use_count() == 0`, boolean conversion false
for Strong Handles) and changes no counter of any control block (the state
is untouched); move-assigning from a distinct source likewise leaves the
source empty, and it does not change the aggregate `strong_count` or
`weak_count` of the source's (shared) control block PROVIDED the
destination did not already reference that same control block — when it
did, the assignment decreases that block's strong (resp. weak) count by
one, because the destination's previous reference is released through the
temporary's destructor (see the counterexample). -/
theorem c8_move_empties_source_amended (st : State) :
    (∀ r : shared_ptr,
      (shared_ptr.move_construct st r).1 = st
      ∧ (shared_ptr.move_construct st r).2.1 = r
      ∧ (shared_ptr.move_construct st r).2.2 = shared_ptr.empty
      ∧ (shared_ptr.move_construct st r).2.2.use_count (shared_ptr.move_construct st r).1 = 0
      ∧ (shared_ptr.move_construct st r).2.2.toBool = false)
    ∧ (∀ r : weak_ptr,
      (weak_ptr.move_construct st r).1 = st
      ∧ (weak_ptr.move_construct st r).2.1 = r
      ∧ (weak_ptr.move_construct st r).2.2 = weak_ptr.empty
      ∧ (weak_ptr.move_construct st r).2.2.use_count (weak_ptr.move_construct st r).1 = 0)
    ∧ (∀ (dst src : shared_ptr) (i : Nat), src.control = some i → dst.control ≠ some i →
      (shared_ptr.move_assign st dst src).2.2 = shared_ptr.empty
      ∧ (shared_ptr.move_assign st dst src).2.2.use_count (shared_ptr.move_assign st dst src).1 = 0
      ∧ (shared_ptr.move_assign st dst src).2.2.toBool = false
      ∧ (shared_ptr.move_assign st dst src).2.1 = src
      ∧ (shared_ptr.move_assign st dst src).1.blk i = st.blk i)
    ∧ (∀ (dst src : weak_ptr) (i : Nat), src.control = some i → dst.control ≠ some i →
      (weak_ptr.move_assign st dst src).2.2 = weak_ptr.empty
      ∧ (weak_ptr.move_assign st dst src).2.2.use_count (weak_ptr.move_assign st dst src).1 = 0
      ∧ (weak_ptr.move_assign st dst src).2.1 = src
      ∧ (weak_ptr.move_assign st dst src).1.blk i = st.blk i) := by
  refine ⟨fun r => ⟨rfl, rfl, rfl, rfl, rfl⟩, fun r => ⟨rfl, rfl, rfl, rfl⟩,
    fun dst src i hs hd => ⟨rfl, rfl, rfl, rfl, ?_⟩,
    fun dst src i hs hd => ⟨rfl, rfl, rfl, ?_⟩⟩
  · show (shared_ptr.destruct st dst).blk i = st.blk i
    exact destruct_blk_other st dst i hd
  · show (weak_ptr.destruct st dst).blk i = st.blk i
    exact weak_destruct_blk_other st dst i hd

/-- C8 witness: source on block 0, destination on block 1; after the move
assignment the source is empty and block 0's counters are unchanged. -/
theorem c8_move_witness :
    (shared_ptr.move_assign ⟨2, fun _ => ⟨BlockKind.not_init_block, 1, 0, 0, 0⟩, 2⟩
      ⟨some 1, 9⟩ ⟨some 0, 5⟩).2.2 = shared_ptr.empty
    ∧ (shared_ptr.move_assign ⟨2, fun _ => ⟨BlockKind.not_init_block, 1, 0, 0, 0⟩, 2⟩
      ⟨some 1, 9⟩ ⟨some 0, 5⟩).1.blk 0
      = (⟨2, fun _ => ⟨BlockKind.not_init_block, 1, 0, 0, 0⟩, 2⟩ : State).blk 0 :=
  have h := (c8_move_empties_source_amended
    ⟨2, fun _ => ⟨BlockKind.not_init_block, 1, 0, 0, 0⟩, 2⟩).2.2.1
    ⟨some 1, 9⟩ ⟨some 0, 5⟩ 0 rfl (by decide)
  ⟨h.1, h.2.2.2.2⟩
